import Mathlib

/-!
Verification of the otto_FTAF finite-time air-fuel Otto-cycle package.

This file gives a shallow embedding, over exact rationals, of the numeric
core of the package:

* the fuel/air mixture bookkeeping of otto_FTAF/therm/ideal_mix.py
  (classes ChemMix, FuelMix, IdealMix, OttoMix), in particular the burnt
  product composition burnt_n_i, the instantaneous composition chi, the
  heat release qj and the mole count nm_j;
* the per-step state update and the result aggregation of the cycle
  solver otto_FTAF/cycle/otto.py (class Solve);
* the shared class-level dictionaries of ideal_mix.py, modelled as an
  explicit store threaded through the operations that mutate them.

Python floats are modelled as exact rationals.  The only non-rational
operation in the embedded code, math.sqrt in the rich branch of
burnt_n_i, is modelled by an explicit parameter s; theorems about the
rich branch carry the hypotheses 0 <= s and s^2 = discriminant, which is
exactly the information math.sqrt provides when the discriminant is
non-negative.  Data produced by the external collaborators of the core
(the molecular-formula parser otto_FTAF/chem/molec.py and the read-only
table otto_FTAF/therm/props.py) is carried as per-species fields and as
rational constants copied from that table.
-/

namespace OttoFTAF

/-- Universal gas constant in kJ/(mol K): scipy.constants.R / 1000.0 as in
IdealMix.__Ru (ideal_mix.py line 443), with R = 8.3144598 J/(mol K). -/
def Ru : ℚ := 83144598 / 10000000000

/-- Default equilibrium constant of the rich-combustion quadratic,
the default argument k = 3.5 of OttoMix.burnt_n_i. -/
def defaultK : ℚ := 7 / 2

/-- Formation enthalpy of CO2 (gas), stdProps['CO2']['g']['hf0'] (kJ/mol). -/
def hfCO2 : ℚ := -3935 / 10

/-- Formation enthalpy of H2O (gas), stdProps['H2O']['g']['hf0'] (kJ/mol). -/
def hfH2O : ℚ := -2418 / 10

/-- Formation enthalpy of CO (gas), stdProps['CO']['g']['hf0'] (kJ/mol). -/
def hfCO : ℚ := -1105 / 10

/-- Specific heat of CO2 (gas), stdProps['CO2']['g']['c_p'] (J/(mol K)). -/
def cpCO2 : ℚ := 371 / 10

/-- Specific heat of H2O (gas), stdProps['H2O']['g']['c_p'] (J/(mol K)). -/
def cpH2O : ℚ := 336 / 10

/-- Specific heat of CO (gas), stdProps['CO']['g']['c_p'] (J/(mol K)). -/
def cpCOg : ℚ := 291 / 10

/-- Specific heat of H2 (gas), stdProps['H2']['g']['c_p'] (J/(mol K)). -/
def cpH2g : ℚ := 288 / 10

/-- Specific heat of O2 (gas), stdProps['O2']['g']['c_p'] (J/(mol K)). -/
def cpO2 : ℚ := 294 / 10

/-- Specific heat of N2 (gas), stdProps['N2']['g']['c_p'] (J/(mol K)). -/
def cpN2 : ℚ := 291 / 10

/-- Molar mass of O2 (kg/kmol) as produced by the external molecular
utility molec.massa_molar; the exact numeric value is never used by a
proof in this file. -/
def mmO2 : ℚ := 319988 / 10000

/-- Molar mass of N2 (kg/kmol) as produced by the external molecular
utility molec.massa_molar; the exact numeric value is never used by a
proof in this file. -/
def mmN2 : ℚ := 280134 / 10000

/-- Per-fuel data.  The fields c, h, o, n are the atom counts that
fuels.Fuel.find_n_is extracts from the formula string, hf0 is the
formation enthalpy stdProps[formula]['g']['hf0'], M the molar mass from
the external molecular utility, and cp the specific heat
stdProps[formula]['g']['c_p'].  Formula parsing itself is an external
collaborator of the core, so these fields carry its output. -/
structure Fuel where
  name : String
  c : ℚ
  h : ℚ
  o : ℚ
  n : ℚ
  hf0 : ℚ
  M : ℚ
  cp : ℚ

/-- FuelMix.n_is carbon total: the sum of the per-fuel C atom counts,
NOT weighted by the fuel proportions (ideal_mix.py lines 358-377). -/
def nc (fs : List Fuel) : ℚ := (fs.map Fuel.c).sum

/-- FuelMix.n_is hydrogen total (unweighted sum, like nc). -/
def nh (fs : List Fuel) : ℚ := (fs.map Fuel.h).sum

/-- FuelMix.n_is oxygen total (unweighted sum, like nc). -/
def no (fs : List Fuel) : ℚ := (fs.map Fuel.o).sum

/-- FuelMix.n_is nitrogen total (unweighted sum, like nc). -/
def nn (fs : List Fuel) : ℚ := (fs.map Fuel.n).sum

/-- Denominator of the mixture epsilon, nC + nH/4 - nO/2. -/
def epsDen (fs : List Fuel) : ℚ := nc fs + nh fs / 4 - no fs / 2

/-- FuelMix.mix_epsilon: 1 / (nC + nH/4 - nO/2). -/
def mix_epsilon (fs : List Fuel) : ℚ := 1 / epsDen fs

/-- State of an OttoMix instance after __init__ (ideal_mix.py lines
834-872): the fuel list, the normalized proportions (FuelMix computes
them as the mole fractions of the constructor mole list), phi, the air
ratio psi, the air and fuel mole counts n_ar and n_F, the external heat
Qext and the reference state (P0, T0, V0). -/
structure OttoMix where
  fuels : List Fuel
  props : List ℚ
  phi : ℚ
  psi : ℚ
  n_ar : ℚ
  n_F : ℚ
  Qext : ℚ
  P0 : ℚ
  T0 : ℚ
  V0 : ℚ

/-- OttoMix.__init__: psi is Ar().psi = 3.76, the proportions are the
mole fractions of the constructor list n (FuelMix.__init__ stores
list(self.xi.values())), and n_ar, n_F follow ideal_mix.py lines
854-855. -/
def mkOttoMix (fuel : List Fuel) (ns : List ℚ) (phi pressao temperatura volume q_ext : ℚ) :
    OttoMix :=
  let eps := mix_epsilon fuel
  let psi : ℚ := 94 / 25
  let n_ar := (pressao * volume / (Ru * temperatura)) / (1 + phi * eps / (1 + psi))
  { fuels := fuel
    props := ns.map (fun x => x / ns.sum)
    phi := phi
    psi := psi
    n_ar := n_ar
    n_F := n_ar * phi * eps / (1 + psi)
    Qext := q_ext
    P0 := pressao
    T0 := temperatura
    V0 := volume }

/-- Moles of O2 brought in by the air: ar.mix_air['O2'] * n_ar =
n_ar / (1 + psi). -/
def airO2 (m : OttoMix) : ℚ := m.n_ar / (1 + m.psi)

/-- Moles of N2 brought in by the air: ar.mix_air['N2'] * n_ar =
n_ar * psi / (1 + psi). -/
def airN2 (m : OttoMix) : ℚ := m.n_ar * m.psi / (1 + m.psi)

/-- Burnt product composition, the six mole counts set by
OttoMix.burnt_n_i (ideal_mix.py lines 894-929). -/
structure Burnt where
  nCO2 : ℚ
  nH2O : ℚ
  nCO : ℚ
  nH2 : ℚ
  nO2 : ℚ
  nN2 : ℚ

/-- Coefficient aa of the rich-combustion quadratic (line 911). -/
def richA (k : ℚ) : ℚ := k - 1

/-- Coefficient bb of the rich-combustion quadratic (lines 912-914). -/
def richB (m : OttoMix) (k : ℚ) : ℚ :=
  2 * (nc m.fuels * m.n_F - m.n_ar / (1 + m.psi)) +
    k * (2 * m.n_ar / (m.psi + 1) - (3 * nc m.fuels + nh m.fuels / 2 - no m.fuels) * m.n_F) -
    no m.fuels * m.n_F

/-- Coefficient cc of the rich-combustion quadratic (lines 915-916). -/
def richC (m : OttoMix) (k : ℚ) : ℚ :=
  k * nc m.fuels * m.n_F *
    (2 * nc m.fuels * m.n_F + nh m.fuels * m.n_F / 2 - no m.fuels * m.n_F -
      2 * m.n_ar / (m.psi + 1))

/-- OttoMix.burnt_n_i (ideal_mix.py lines 894-929).  The parameter s
models math.sqrt(bb**2 - 4.0*aa*cc); it is only meaningful under the
hypotheses 0 <= s and s^2 = richB^2 - 4*richA*richC, which theorems
about the rich branch carry.  In the rich branch nO2 is 0 because the
branch never assigns self.__nO2, so the class-level default 0.0 of line
816 is read back; in the lean branch nCO and nH2 are 0 for the same
reason (lines 814-815). -/
def burnt_n_i (m : OttoMix) (k s : ℚ) : Burnt :=
  if m.phi ≤ 1 then
    { nCO2 := nc m.fuels * m.n_F
      nH2O := nh m.fuels * m.n_F / 2
      nCO := 0
      nH2 := 0
      nO2 := m.n_ar / (1 + m.psi) + no m.fuels * m.n_F / 2 - nc m.fuels * m.n_F -
        nh m.fuels * m.n_F / 4
      nN2 := m.n_ar * m.psi / (1 + m.psi) + nn m.fuels * m.n_F / 2 }
  else
    let c1 := (-richB m k - s) / (2 * richA k)
    let c := if c1 < 0 then (-richB m k + s) / (2 * richA k) else c1
    { nCO2 := nc m.fuels * m.n_F - c
      nH2O := 2 * (m.n_ar / (1 + m.psi) + no m.fuels * m.n_F / 2 - nc m.fuels * m.n_F) + c
      nCO := c
      nH2 := nh m.fuels * m.n_F -
        2 * (m.n_ar / (1 + m.psi) + no m.fuels * m.n_F / 2 - nc m.fuels * m.n_F) - c
      nO2 := 0
      nN2 := m.n_ar * m.psi / (1 + m.psi) + nn m.fuels * m.n_F / 2 }

/-- The CO amount _c selected by the rich branch of burnt_n_i
(lines 917-919): the root (-b - sqrt(disc))/(2a), replaced by the
conjugate root (-b + sqrt(disc))/(2a) exactly when it is negative. -/
def richCO (m : OttoMix) (k s : ℚ) : ℚ :=
  if (-richB m k - s) / (2 * richA k) < 0 then (-richB m k + s) / (2 * richA k)
  else (-richB m k - s) / (2 * richA k)

/-- Total burnt moles, __burnt_nTotal (lines 907 and 927). -/
def burntTotal (b : Burnt) : ℚ := b.nCO2 + b.nH2O + b.nCO + b.nH2 + b.nO2 + b.nN2

/-- Carbon atoms in the unreacted fuel+air mixture built by
OttoMix.__init__: each fuel i contributes n_F * prop_i moles (line 860),
air contributes none. -/
def unburntC (m : OttoMix) : ℚ :=
  ((m.fuels.zip m.props).map (fun fp => m.n_F * fp.2 * fp.1.c)).sum

/-- Hydrogen atoms in the unreacted fuel+air mixture. -/
def unburntH (m : OttoMix) : ℚ :=
  ((m.fuels.zip m.props).map (fun fp => m.n_F * fp.2 * fp.1.h)).sum

/-- Oxygen atoms in the unreacted fuel+air mixture: fuel oxygen plus two
atoms per mole of air O2. -/
def unburntO (m : OttoMix) : ℚ :=
  ((m.fuels.zip m.props).map (fun fp => m.n_F * fp.2 * fp.1.o)).sum + 2 * airO2 m

/-- Nitrogen atoms in the unreacted fuel+air mixture: fuel nitrogen plus
two atoms per mole of air N2. -/
def unburntN (m : OttoMix) : ℚ :=
  ((m.fuels.zip m.props).map (fun fp => m.n_F * fp.2 * fp.1.n)).sum + 2 * airN2 m

/-- Carbon atoms in the burnt products. -/
def burntC (b : Burnt) : ℚ := b.nCO2 + b.nCO

/-- Hydrogen atoms in the burnt products. -/
def burntH (b : Burnt) : ℚ := 2 * b.nH2O + 2 * b.nH2

/-- Oxygen atoms in the burnt products. -/
def burntO (b : Burnt) : ℚ := 2 * b.nCO2 + b.nH2O + b.nCO + 2 * b.nO2

/-- Nitrogen atoms in the burnt products. -/
def burntN (b : Burnt) : ℚ := 2 * b.nN2

/-- Methane, with the atom counts molec.atomize('CH4') produces and the
stdProps['CH4'] gas data (hf0 = -74.6 kJ/mol, c_p = 35.7 J/(mol K)). -/
def fuelCH4 : Fuel :=
  { name := "CH4", c := 1, h := 4, o := 0, n := 0, hf0 := -746 / 10, M := 16043 / 1000,
    cp := 357 / 10 }

/-- Octane, with the atom counts molec.atomize('C8H18') produces and the
stdProps['C8H18'] gas data (hf0 = -208.5 kJ/mol, c_p = 195.5 J/(mol K)). -/
def fuelC8H18 : Fuel :=
  { name := "C8H18", c := 8, h := 18, o := 0, n := 0, hf0 := -2085 / 10, M := 114229 / 1000,
    cp := 1955 / 10 }

/-- A concrete rich methane mixture: OttoMix(['CH4'], [1.0], 2.0, 100.0,
300.0, 432*Ru/25).  The volume is chosen so that the mixture has exactly
n_F = 1 and n_ar = 119/25, hence airO2 = 1. -/
def Mch4 : OttoMix := mkOttoMix [fuelCH4] [1] 2 100 300 (432 * Ru / 25) 0

/-- A concrete lean octane mixture: OttoMix(['C8H18'], [1.0], 0.5,
100.0, 300.0, 3*Ru), which has n_F = 1/120 and n_ar = 119/120. -/
def Moct : OttoMix := mkOttoMix [fuelC8H18] [1] (1 / 2) 100 300 (3 * Ru) 0

/-- Instantaneous composition returned by OttoMix.chi (ideal_mix.py
lines 1229-1246): the 7-tuple (inst_f, inst_co2, inst_h2o, inst_co,
inst_h2, inst_o2, inst_n2).  The code calls self.burnt_n_i() with its
default k; the sqrt parameter s is threaded through unchanged. -/
structure ChiComp where
  f : ℚ
  co2 : ℚ
  h2o : ℚ
  co : ℚ
  h2 : ℚ
  o2 : ℚ
  n2 : ℚ

/-- OttoMix.chi (lines 1229-1246). -/
def chi (m : OttoMix) (s : ℚ) (y zeta : ℚ) : ChiComp :=
  let b := burnt_n_i m defaultK s
  let inst_ar := (1 - y) * (1 - zeta) * m.n_ar
  { f := (1 - y) * (1 - zeta) * m.n_F
    co2 := (zeta + (1 - zeta) * y) * b.nCO2
    h2o := (zeta + (1 - zeta) * y) * b.nH2O
    co := (zeta + (1 - zeta) * y) * b.nCO
    h2 := (zeta + (1 - zeta) * y) * b.nH2
    o2 := (zeta + (1 - zeta) * y) * b.nO2 + inst_ar / (1 + m.psi)
    n2 := (zeta + (1 - zeta) * y) * b.nN2 + inst_ar * m.psi / (1 + m.psi) }

/-- OttoMix.nm_j (lines 1248-1257): the sum of the chi components. -/
def nm_j (m : OttoMix) (s : ℚ) (y zeta : ℚ) : ℚ :=
  (chi m s y zeta).f + (chi m s y zeta).co2 + (chi m s y zeta).h2o + (chi m s y zeta).co +
    (chi m s y zeta).h2 + (chi m s y zeta).o2 + (chi m s y zeta).n2

/-- One entry of the updated mixture dictionary of OttoMix.__init__
(lines 860-865): a species name, its mole amount, its molar mass from
the external molecular utility, and its stdProps specific heat. -/
structure Species where
  name : String
  amt : ℚ
  M : ℚ
  cp : ℚ

/-- The mixture contents after OttoMix.__init__: each fuel i at
n_F * prop_i moles, then air O2 and N2 (lines 860-862). -/
def mixSpecies (m : OttoMix) : List Species :=
  (m.fuels.zip m.props).map
      (fun fp => { name := fp.1.name, amt := m.n_F * fp.2, M := fp.1.M, cp := fp.1.cp }) ++
    [{ name := "O2", amt := airO2 m, M := mmO2, cp := cpO2 },
     { name := "N2", amt := airN2 m, M := mmN2, cp := cpN2 }]

/-- ChemMix.mols_total on the updated mixture: the sum of the mole
amounts. -/
def mols_total (m : OttoMix) : ℚ := ((mixSpecies m).map Species.amt).sum

/-- ChemMix.massa_molar_total: sum over the mixture of
molar_mass(species) * mole_fraction(species) / 1000 (lines 204-216). -/
def massa_molar_total (m : OttoMix) : ℚ :=
  ((mixSpecies m).map (fun sp => sp.M * (sp.amt / mols_total m) / 1000)).sum

/-- ChemMix.massa_total: total moles times mixture molar mass
(lines 227-237). -/
def massa (m : OttoMix) : ℚ := mols_total m * massa_molar_total m

/-- OttoMix.qj (ideal_mix.py lines 1206-1226), the heat released
between burn fractions y1 and y2 at residual fraction zeta.  The code
calls burnt_n_i with the default k; s models the sqrt of the quadratic
discriminant as in burnt_n_i. -/
def qj (m : OttoMix) (s : ℚ) (y1 y2 zeta : ℚ) : ℚ :=
  let b := burnt_n_i m defaultK s
  let prodH := b.nCO2 * hfCO2 + b.nH2O * hfH2O + b.nCO * hfCO
  (zeta + (1 - zeta) * y1) * prodH - (zeta + (1 - zeta) * y2) * prodH +
    m.Qext * (y2 - y1) * massa m +
    ((m.fuels.zip m.props).map
        (fun fp =>
          (1 - y1) * (1 - zeta) * m.n_F * fp.2 * fp.1.hf0 -
            (1 - y2) * (1 - zeta) * m.n_F * fp.2 * fp.1.hf0)).sum

/-- Formation-enthalpy total of the fuel load, n_F * prop_i * hf0_i
summed over the fuels; an abbreviation used to state the slope form of
qj. -/
def fuelFormH (m : OttoMix) : ℚ :=
  ((m.fuels.zip m.props).map (fun fp => m.n_F * fp.2 * fp.1.hf0)).sum

/-- Product-side enthalpy term of qj, nCO2*hfCO2 + nH2O*hfH2O +
nCO*hfCO. -/
def prodFormH (m : OttoMix) (s : ℚ) : ℚ :=
  (burnt_n_i m defaultK s).nCO2 * hfCO2 + (burnt_n_i m defaultK s).nH2O * hfH2O +
    (burnt_n_i m defaultK s).nCO * hfCO

/-- State triple (U, T, P) stored at a grid index by Solve.iterate. -/
structure StepState where
  U : ℚ
  T : ℚ
  P : ℚ

/-- One transition of Solve.iterate (otto.py lines 197-226), from grid
index j to j+1.  The isochoric branch (lines 199-204) is taken when
the volume change is below the tolerance e_v; it performs no work
iteration and stores zero work.  Otherwise the code runs the
fixed-point work iteration; its loop body only recomputes U, T, P and
the polytropic exponent from the current work estimate, and after the
loop exits the code stores the state obtained from the final work
estimate (lines 222-226).  The parameter W models that final
(converged) work value upper_w[k][j], so this function is the exact
per-step state update of the source with the loop's limit supplied
explicitly; note that the stored pressure of the non-isochoric branch
uses the mole count at Y[j] (line 224), not at Y[j+1].  The returned
pair is the stored state at j+1 and the stored work __trab[j]. -/
def iterateStep (m : OttoMix) (s zeta e_v : ℚ) (vj vj1 yj yj1 Uj Tj Qj Cvj Cvj1 W : ℚ) :
    StepState × ℚ :=
  if |vj1 - vj| < e_v then
    let U1 := Uj + Qj
    let T1 := Qj / Cvj + Tj
    ({ U := U1, T := T1, P := nm_j m s yj1 zeta * Ru * T1 / vj1 }, 0)
  else
    let U1 := Uj + Qj + W
    let T1 := U1 / Cvj1
    ({ U := U1, T := T1, P := nm_j m s yj zeta * Ru * T1 / vj1 }, W)

/-- The four accumulators of Solve.results (otto.py lines 242-255):
(w_ent, w_sai, q_ent, q_sai), folded over the per-step (work, heat)
pairs exactly as the loop does. -/
def resultsSums : List (ℚ × ℚ) → ℚ × ℚ × ℚ × ℚ
  | [] => (0, 0, 0, 0)
  | wq :: rest =>
    let r := resultsSums rest
    ((if 0 ≤ wq.1 then wq.1 else 0) + r.1,
     (if wq.1 < 0 then -wq.1 else 0) + r.2.1,
     (if 0 ≤ wq.2 then wq.2 else 0) + r.2.2.1,
     (if wq.2 < 0 then -wq.2 else 0) + r.2.2.2)

/-- The triple returned by Solve.results (otto.py lines 257-264):
thermal efficiency eta = W_liq / Q_ent, net work W_liq = W_sai - W_ent,
and back-work ratio rbw = W_ent / W_sai. -/
def resultsOut (steps : List (ℚ × ℚ)) : ℚ × ℚ × ℚ :=
  let r := resultsSums steps
  ((r.2.1 - r.1) / r.2.2.1, r.2.1 - r.1, r.1 / r.2.1)

/-- A constructor argument of ChemMix.__init__ that is either a string
or a list, mirroring the dynamic type the Python code tests with
isinstance: the species argument. -/
inductive ArgSpecies where
  | ofString (s : String)
  | ofList (xs : List String)

/-- The mole-amount argument of ChemMix.__init__: a string or a list of
numbers. -/
inductive ArgMols where
  | ofString (s : String)
  | ofList (xs : List ℚ)

/-- The two exceptions ChemMix.__init__ can raise: TypeError for a
string argument, IndexError for mismatched list lengths. -/
inductive InitError where
  | typeError
  | indexError
deriving DecidableEq

/-- The state ChemMix.__init__ creates on success: the mixture
dictionary species[i] -> n[i] and the mole array __N. -/
structure ChemMixState where
  mix : List (String × ℚ)
  N : List ℚ

/-- ChemMix.__init__ (ideal_mix.py lines 72-88): a string species or
mole argument raises TypeError before anything is built; lists of
different lengths raise IndexError; otherwise the mixture dictionary
and mole array are created. -/
def chemMixInit : ArgSpecies → ArgMols → Except InitError ChemMixState
  | ArgSpecies.ofString _, _ => Except.error InitError.typeError
  | ArgSpecies.ofList _, ArgMols.ofString _ => Except.error InitError.typeError
  | ArgSpecies.ofList sp, ArgMols.ofList ns =>
    if sp.length ≠ ns.length then Except.error InitError.indexError
    else Except.ok { mix := sp.zip ns, N := ns }

/-- A shared dictionary, modelling one of the class-level dict
attributes of ideal_mix.py: an association list in key insertion
order, as a Python dict is. -/
abbrev Dict := List (String × ℚ)

/-- Write one key with Python dict semantics (d[key] = v on a shared
dict): an existing key keeps its position and gets the new value, a
new key is appended at the end.  Both the position behaviour and the
append order matter, because FuelMix.__init__ reads
list(self.xi.values()) from the shared dictionary. -/
def odset : Dict → String → ℚ → Dict
  | [], key, v => [(key, v)]
  | p :: rest, key, v => if p.1 = key then (key, v) :: rest else p :: odset rest key v

/-- Read one key (the unique occurrence, since odset never creates
duplicates); 0 stands for a read of an absent key. -/
def dget : Dict → String → ℚ
  | [], _ => 0
  | (k, v) :: rest, key => if key = k then v else dget rest key

/-- Write a batch of keys in order (a Python for loop of writes). -/
def odsets (d : Dict) (kvs : List (String × ℚ)) : Dict :=
  kvs.foldl (fun a kv => odset a kv.1 kv.2) d

/-- The shared class-level dictionaries of ideal_mix.py that the
Solve.results pipeline writes and reads: ChemMix.__Xis (line 67),
IdealMix.__cp_i and __cv_i (lines 447, 449), OttoMix.__burnt_cp_i and
__burnt_cv_i (lines 823, 825).  They are class attributes mutated in
place, hence shared by every instance of the class; this structure is
that process-wide store. -/
structure Store where
  xis : Dict
  cpI : Dict
  cvI : Dict
  bCpI : Dict
  bCvI : Dict

/-- The batch of writes ChemMix.frac_molar performs for an OttoMix
instance: key_i -> N[i] / total over the instance mixture. -/
def xisKvs (m : OttoMix) : List (String × ℚ) :=
  (mixSpecies m).map (fun sp => (sp.name, sp.amt / mols_total m))

/-- ChemMix.frac_molar (lines 183-193) on the shared store: writes the
mole fractions of this instance into the shared __Xis and returns that
shared dictionary. -/
def fracMolarS (m : OttoMix) (st : Store) : Store × Dict :=
  let st1 := { st with xis := odsets st.xis (xisKvs m) }
  (st1, st1.xis)

/-- ChemMix.massa_molar_total (lines 204-216) on the shared store:
calls frac_molar, then reads back this instance's keys from the shared
__Xis. -/
def massaMolarTotalS (m : OttoMix) (st : Store) : Store × ℚ :=
  let r := fracMolarS m st
  (r.1, ((mixSpecies m).map (fun sp => sp.M * dget r.2 sp.name / 1000)).sum)

/-- ChemMix.massa_total (lines 227-237) on the shared store. -/
def massaS (m : OttoMix) (st : Store) : Store × ℚ :=
  let r := massaMolarTotalS m st
  (r.1, mols_total m * r.2)

/-- The batch of writes IdealMix.cp_is performs: key -> c_p/1000 over
the instance mixture (lines 546-567; the c_p values come from the
read-only stdProps table). -/
def cpKvs (m : OttoMix) : List (String × ℚ) :=
  (mixSpecies m).map (fun sp => (sp.name, sp.cp / 1000))

/-- The batch of writes IdealMix.cv_is performs: key -> __cp_i[key] -
Ru, reading the shared __cp_i dictionary it has just written
(lines 601-612). -/
def cvKvs (m : OttoMix) (cpDict : Dict) : List (String × ℚ) :=
  (mixSpecies m).map (fun sp => (sp.name, dget cpDict sp.name - Ru))

/-- IdealMix.cp_is on the shared store. -/
def cpIsS (m : OttoMix) (st : Store) : Store × Dict :=
  let st1 := { st with cpI := odsets st.cpI (cpKvs m) }
  (st1, st1.cpI)

/-- IdealMix.cv_is on the shared store: calls cp_is, then writes
__cv_i from the shared __cp_i. -/
def cvIsS (m : OttoMix) (st : Store) : Store × Dict :=
  let r := cpIsS m st
  let st2 := { r.1 with cvI := odsets r.1.cvI (cvKvs m r.2) }
  (st2, st2.cvI)

/-- The six burnt product species and their stdProps c_p values
(J/(mol K)), the list tmp of OttoMix.burnt_cp_is. -/
def burntSpeciesCp : List (String × ℚ) :=
  [("CO2", cpCO2), ("H2O", cpH2O), ("CO", cpCOg), ("H2", cpH2g), ("O2", cpO2), ("N2", cpN2)]

/-- The batch of writes OttoMix.burnt_cp_is performs (lines
1030-1047). -/
def bcpKvs : List (String × ℚ) := burntSpeciesCp.map (fun p => (p.1, p.2 / 1000))

/-- The batch of writes OttoMix.burnt_cv_is performs, reading the
shared __burnt_cp_i it has just written (lines 1082-1092). -/
def bcvKvs (bcpDict : Dict) : List (String × ℚ) :=
  burntSpeciesCp.map (fun p => (p.1, dget bcpDict p.1 - Ru))

/-- OttoMix.burnt_cp_is on the shared store. -/
def burntCpIsS (st : Store) : Store × Dict :=
  let st1 := { st with bCpI := odsets st.bCpI bcpKvs }
  (st1, st1.bCpI)

/-- OttoMix.burnt_cv_is on the shared store. -/
def burntCvIsS (st : Store) : Store × Dict :=
  let r := burntCpIsS st
  let st2 := { r.1 with bCvI := odsets r.1.bCvI (bcvKvs r.2) }
  (st2, st2.bCvI)

/-- OttoMix.upper_cv_j (lines 1299-1316) on the shared store: chi is
instance-pure, cv_is and burnt_cv_is write and then read the shared
dictionaries. -/
def upperCvJS (m : OttoMix) (s y zeta : ℚ) (st : Store) : Store × ℚ :=
  let t := chi m s y zeta
  let r1 := cvIsS m st
  let r2 := burntCvIsS r1.1
  (r2.1,
    t.co2 * dget r2.2 "CO2" + t.h2o * dget r2.2 "H2O" + t.co * dget r2.2 "CO" +
      t.h2 * dget r2.2 "H2" + t.o2 * dget r2.2 "O2" + t.n2 * dget r2.2 "N2" +
      ((m.fuels.zip m.props).map (fun fp => dget r1.2 fp.1.name * t.f * fp.2)).sum)

/-- OttoMix.cv_m_j (lines 1280-1297) on the shared store; xi_j is
instance-pure (it is chi scaled by 1/nm_j). -/
def cvMJS (m : OttoMix) (s y zeta : ℚ) (st : Store) : Store × ℚ :=
  let r1 := cvIsS m st
  let r2 := burntCvIsS r1.1
  let t := chi m s y zeta
  let nm := nm_j m s y zeta
  (r2.1,
    dget r2.2 "CO2" * (t.co2 / nm) + dget r2.2 "H2O" * (t.h2o / nm) +
      dget r2.2 "CO" * (t.co / nm) + dget r2.2 "H2" * (t.h2 / nm) +
      dget r2.2 "O2" * (t.o2 / nm) + dget r2.2 "N2" * (t.n2 / nm) +
      ((m.fuels.zip m.props).map (fun fp => dget r1.2 fp.1.name * (t.f * fp.2 / nm))).sum)

/-- OttoMix.qj (lines 1206-1226) on the shared store: h_formacao and
burnt_n_i touch only instance attributes, massa_total goes through the
shared __Xis. -/
def qjS (m : OttoMix) (s y1 y2 zeta : ℚ) (st : Store) : Store × ℚ :=
  let r := massaS m st
  let b := burnt_n_i m defaultK s
  let prodH := b.nCO2 * hfCO2 + b.nH2O * hfH2O + b.nCO * hfCO
  (r.1,
    (zeta + (1 - zeta) * y1) * prodH - (zeta + (1 - zeta) * y2) * prodH +
      m.Qext * (y2 - y1) * r.2 +
      ((m.fuels.zip m.props).map
          (fun fp =>
            (1 - y1) * (1 - zeta) * m.n_F * fp.2 * fp.1.hf0 -
              (1 - y2) * (1 - zeta) * m.n_F * fp.2 * fp.1.hf0)).sum)

/-- The allCv row of Solve.prim (otto.py lines 164-165): one
upper_cv_j call per grid point, threading the shared store. -/
def upperCvRowS (m : OttoMix) (s zeta : ℚ) : List ℚ → Store → Store × List ℚ
  | [], st => (st, [])
  | y :: ys, st =>
    let r := upperCvJS m s y zeta st
    let rest := upperCvRowS m s zeta ys r.1
    (rest.1, r.2 :: rest.2)

/-- The allQ row of Solve.prim (otto.py lines 166-167): one qj call per
transition, threading the shared store. -/
def qjRowS (m : OttoMix) (s zeta : ℚ) : List ℚ → Store → Store × List ℚ
  | [], st => (st, [])
  | [_], st => (st, [])
  | y1 :: y2 :: ys, st =>
    let r := qjS m s y1 y2 zeta st
    let rest := qjRowS m s zeta (y2 :: ys) r.1
    (rest.1, r.2 :: rest.2)

/-- Solve.prim (otto.py lines 154-168) on the shared store: the allCv
row, then the allQ row. -/
def primS (m : OttoMix) (s zeta : ℚ) (Ys : List ℚ) (st : Store) : Store × (List ℚ × List ℚ) :=
  let r1 := upperCvRowS m s zeta Ys st
  let r2 := qjRowS m s zeta Ys r1.1
  (r2.1, (r1.2, r2.2))

/-- The work row of Solve.iterate (otto.py lines 197-227) on the shared
store: per transition, the isochoric branch touches no shared
dictionary and stores zero work; the non-isochoric branch calls cv_m_j
once (to seed the exponent) and stores the converged work, supplied by
the schedule Ws exactly as in iterateStep. -/
def iterateTrabS (m : OttoMix) (s zeta e_v : ℚ) :
    List ℚ → List ℚ → List ℚ → Store → Store × List ℚ
  | v1 :: v2 :: vs, y1 :: y2 :: ys, w :: ws, st =>
    if |v2 - v1| < e_v then
      let rest := iterateTrabS m s zeta e_v (v2 :: vs) (y2 :: ys) ws st
      (rest.1, 0 :: rest.2)
    else
      let r := cvMJS m s y1 zeta st
      let rest := iterateTrabS m s zeta e_v (v2 :: vs) (y2 :: ys) ws r.1
      (rest.1, w :: rest.2)
  | _, _, _, st => (st, [])

/-- Solve.results (otto.py lines 229-264) on the shared store: run
prim, run the iterate work row, then aggregate work and heat exactly as
resultsOut does.  The returned value is the (eta, W_liq, rbw) triple. -/
def solveResultsS (m : OttoMix) (s zeta e_v : ℚ) (vols Ys Ws : List ℚ) (st : Store) :
    Store × (ℚ × ℚ × ℚ) :=
  let r1 := primS m s zeta Ys st
  let r2 := iterateTrabS m s zeta e_v vols Ys Ws r1.1
  (r2.1, resultsOut (r2.2.zip r1.2.2))

/-- Everything one Solve run depends on: its mixture instance and the
scalar and array inputs of the results pipeline. -/
structure SolveIn where
  mix : OttoMix
  s : ℚ
  zeta : ℚ
  e_v : ℚ
  vols : List ℚ
  Ys : List ℚ
  Ws : List ℚ

/-- One full Solve.results run of an instance against the shared
store.  The mix record is the instance state after construction;
construction itself also touches the shared store and is modelled by
mkOttoMixS below. -/
def runSolveS (a : SolveIn) (st : Store) : Store × (ℚ × ℚ × ℚ) :=
  solveResultsS a.mix a.s a.zeta a.e_v a.vols a.Ys a.Ws st

/-- ChemMix.frac_molar as called from FuelMix.__init__ (ideal_mix.py
line 311), when the instance mixture still holds only the fuels:
writes name_i -> n_i / total into the shared __Xis and returns that
shared dictionary. -/
def fracMolarFuelS (names : List String) (ns : List ℚ) (st : Store) : Store × Dict :=
  let st1 := { st with xis := odsets st.xis ((names.zip ns).map (fun p => (p.1, p.2 / ns.sum))) }
  (st1, st1.xis)

/-- OttoMix.__init__ against the shared store.  FuelMix.__init__ (line
312) sets the proportion list to list(self.xi.values()): the values of
the ENTIRE shared class-level __Xis, in insertion order — including
any keys left there by previously constructed or evaluated instances.
This is the one shared-dictionary read of the pipeline that is not
preceded by a same-call write of every key it returns.  The remaining
construction steps follow mkOttoMix; the final cv_is write models
capacidade_termica_v called for U0 (lines 871-872). -/
def mkOttoMixS (fuel : List Fuel) (ns : List ℚ) (phi pressao temperatura volume q_ext : ℚ)
    (st : Store) : Store × OttoMix :=
  let r := fracMolarFuelS (fuel.map Fuel.name) ns st
  let eps := mix_epsilon fuel
  let psi : ℚ := 94 / 25
  let n_ar := (pressao * volume / (Ru * temperatura)) / (1 + phi * eps / (1 + psi))
  let m : OttoMix :=
    { fuels := fuel
      props := r.2.map Prod.snd
      phi := phi
      psi := psi
      n_ar := n_ar
      n_F := n_ar * phi * eps / (1 + psi)
      Qext := q_ext
      P0 := pressao
      T0 := temperatura
      V0 := volume }
  ((cvIsS m r.1).1, m)

/-- The shared store of a freshly started process: every class-level
dictionary is empty. -/
def pristineStore : Store :=
  { xis := [], cpI := [], cvI := [], bCpI := [], bCvI := [] }

/-- The shared store after a first instance — the rich methane mixture
of Mch4 — has been constructed and has computed its mass (massa_total
runs inside every qj call of a results run): __Xis now holds the keys
CH4, O2, N2 with that instance's mole fractions. -/
def storeAfterA : Store :=
  let r := mkOttoMixS [fuelCH4] [1] 2 100 300 (432 * Ru / 25) 0 pristineStore
  (massaS r.2 r.1).1

/-- A second instance, the lean octane mixture of Moct, constructed
AFTER the methane instance above ran: its proportion list inherits the
methane instance's leftover __Xis entries. -/
def Boct_after : OttoMix :=
  (mkOttoMixS [fuelC8H18] [1] (1 / 2) 100 300 (3 * Ru) 0 storeAfterA).2

/-- The same octane instance constructed first, in a fresh process. -/
def Boct_fresh : OttoMix :=
  (mkOttoMixS [fuelC8H18] [1] (1 / 2) 100 300 (3 * Ru) 0 pristineStore).2

/-- Unfolding of the lean branch of burnt_n_i. -/
theorem burnt_n_i_lean (m : OttoMix) (k s : ℚ) (h : m.phi ≤ 1) :
    burnt_n_i m k s =
      { nCO2 := nc m.fuels * m.n_F
        nH2O := nh m.fuels * m.n_F / 2
        nCO := 0
        nH2 := 0
        nO2 := m.n_ar / (1 + m.psi) + no m.fuels * m.n_F / 2 - nc m.fuels * m.n_F -
          nh m.fuels * m.n_F / 4
        nN2 := m.n_ar * m.psi / (1 + m.psi) + nn m.fuels * m.n_F / 2 } := by
  rw [burnt_n_i, if_pos h]

/-- Unfolding of the rich branch of burnt_n_i, with the selected root
written out as richCO. -/
theorem burnt_n_i_rich (m : OttoMix) (k s : ℚ) (h : 1 < m.phi) :
    burnt_n_i m k s =
      { nCO2 := nc m.fuels * m.n_F - richCO m k s
        nH2O := 2 * (m.n_ar / (1 + m.psi) + no m.fuels * m.n_F / 2 - nc m.fuels * m.n_F) +
          richCO m k s
        nCO := richCO m k s
        nH2 := nh m.fuels * m.n_F -
          2 * (m.n_ar / (1 + m.psi) + no m.fuels * m.n_F / 2 - nc m.fuels * m.n_F) -
          richCO m k s
        nO2 := 0
        nN2 := m.n_ar * m.psi / (1 + m.psi) + nn m.fuels * m.n_F / 2 } := by
  rw [burnt_n_i, if_neg (not_le.mpr h)]
  rfl

/-- The concrete rich methane mixture has unit fuel load and air O2
equal to one: the data the concrete theorems below rely on. -/
theorem Mch4_loads : Mch4.n_F = 1 ∧ Mch4.n_ar = 119 / 25 := by
  constructor <;> norm_num [Mch4, mkOttoMix, mix_epsilon, epsDen, nc, nh, no, fuelCH4, Ru]

/-- The concrete lean octane mixture has n_F = 1/120 and
n_ar = 119/120. -/
theorem Moct_loads : Moct.n_F = 1 / 120 ∧ Moct.n_ar = 119 / 120 := by
  constructor <;> norm_num [Moct, mkOttoMix, mix_epsilon, epsDen, nc, nh, no, fuelC8H18, Ru]

/-- Unfolding of odsets on a cons. -/
theorem odsets_cons (d : Dict) (kv : String × ℚ) (kvs : List (String × ℚ)) :
    odsets d (kv :: kvs) = odsets (odset d kv.1 kv.2) kvs := rfl

/-- Reading a freshly written key returns the written value. -/
theorem dget_odset_self (d : Dict) (k : String) (v : ℚ) : dget (odset d k v) k = v := by
  induction d with
  | nil => simp [odset, dget]
  | cons p rest ih =>
    by_cases h : p.1 = k
    · simp [odset, h, dget]
    · simp [odset, h, dget, Ne.symm h, ih]

/-- Reading another key skips a write. -/
theorem dget_odset_ne (d : Dict) (k k' : String) (v : ℚ) (h : k' ≠ k) :
    dget (odset d k v) k' = dget d k' := by
  induction d with
  | nil => simp [odset, dget, h]
  | cons p rest ih =>
    by_cases hp : p.1 = k
    · simp [odset, hp, dget, h]
    · simp [odset, hp, dget, ih]

/-- A batch write does not affect reads of keys outside the batch. -/
theorem dget_odsets_not_mem (d : Dict) (kvs : List (String × ℚ)) (k : String)
    (h : k ∉ kvs.map Prod.fst) : dget (odsets d kvs) k = dget d k := by
  induction kvs generalizing d with
  | nil => rfl
  | cons kv rest ih =>
    simp only [List.map_cons, List.mem_cons, not_or] at h
    rw [odsets_cons, ih _ h.2, dget_odset_ne _ _ _ _ h.1]

/-- Reading a key that belongs to a batch just written does not depend
on the dictionary contents before the batch: this is the
write-before-read discipline of the embedded code. -/
theorem dget_odsets_mem (d : Dict) (kvs : List (String × ℚ)) (k : String)
    (h : k ∈ kvs.map Prod.fst) : dget (odsets d kvs) k = dget (odsets [] kvs) k := by
  induction kvs generalizing d with
  | nil => simp at h
  | cons kv rest ih =>
    rw [odsets_cons, odsets_cons]
    by_cases hm : k ∈ rest.map Prod.fst
    · exact (ih _ hm).trans (ih _ hm).symm
    · have hk : k = kv.1 := by
        simp only [List.map_cons, List.mem_cons] at h
        tauto
      rw [dget_odsets_not_mem _ _ _ hm, dget_odsets_not_mem _ _ _ hm, hk, dget_odset_self,
        dget_odset_self]

/-- Every species of the mixture has its key in the frac_molar write
batch. -/
theorem name_mem_xisKvs (m : OttoMix) (sp : Species) (hsp : sp ∈ mixSpecies m) :
    sp.name ∈ (xisKvs m).map Prod.fst := by
  simp only [xisKvs, List.map_map, List.mem_map, Function.comp]
  exact ⟨sp, hsp, rfl⟩

/-- The value ChemMix.massa_total computes does not depend on the
contents the shared dictionaries held before the call, because
frac_molar rewrites every key it subsequently reads. -/
theorem massaS_indep (m : OttoMix) (st st' : Store) : (massaS m st).2 = (massaS m st').2 := by
  simp only [massaS, massaMolarTotalS, fracMolarS]
  refine congrArg (fun x => mols_total m * x) (congrArg List.sum (List.map_congr_left ?_))
  intro sp hsp
  rw [dget_odsets_mem st.xis _ _ (name_mem_xisKvs m sp hsp),
    dget_odsets_mem st'.xis _ _ (name_mem_xisKvs m sp hsp)]

/-- The value OttoMix.qj returns does not depend on the prior contents
of the shared dictionaries. -/
theorem qjS_indep (m : OttoMix) (s y1 y2 zeta : ℚ) (st st' : Store) :
    (qjS m s y1 y2 zeta st).2 = (qjS m s y1 y2 zeta st').2 := by
  simp only [qjS]
  rw [massaS_indep m st st']

/-- The keys cp_is writes are the mixture species names. -/
theorem cpKvs_keys (m : OttoMix) :
    (cpKvs m).map Prod.fst = (mixSpecies m).map Species.name := by
  simp [cpKvs, List.map_map, Function.comp]

/-- The keys cv_is writes are the mixture species names, whatever
__cp_i dictionary it reads. -/
theorem cvKvs_keys (m : OttoMix) (d : Dict) :
    (cvKvs m d).map Prod.fst = (mixSpecies m).map Species.name := by
  simp [cvKvs, List.map_map, Function.comp]

/-- The keys burnt_cv_is writes are the six product names, whatever
__burnt_cp_i dictionary it reads. -/
theorem bcvKvs_keys (d : Dict) :
    (bcvKvs d).map Prod.fst = burntSpeciesCp.map Prod.fst := by
  simp [bcvKvs, List.map_map, Function.comp]

/-- The values cv_is writes do not depend on the __cp_i contents before
the cp_is call, because cp_is rewrites every key cv_is reads. -/
theorem cvKvs_indep (m : OttoMix) (d d' : Dict) :
    cvKvs m (odsets d (cpKvs m)) = cvKvs m (odsets d' (cpKvs m)) := by
  unfold cvKvs
  refine List.map_congr_left fun sp hsp => ?_
  have hmem : sp.name ∈ (cpKvs m).map Prod.fst := by
    rw [cpKvs_keys]
    exact List.mem_map_of_mem _ hsp
  rw [dget_odsets_mem d _ _ hmem, dget_odsets_mem d' _ _ hmem]

/-- The values burnt_cv_is writes do not depend on the __burnt_cp_i
contents before the burnt_cp_is call. -/
theorem bcvKvs_indep (d d' : Dict) : bcvKvs (odsets d bcpKvs) = bcvKvs (odsets d' bcpKvs) := by
  unfold bcvKvs
  refine List.map_congr_left fun p hp => ?_
  have hmem : p.1 ∈ bcpKvs.map Prod.fst := by
    simp only [bcpKvs, List.map_map, Function.comp]
    exact List.mem_map_of_mem _ hp
  rw [dget_odsets_mem d _ _ hmem, dget_odsets_mem d' _ _ hmem]

/-- Reading a mixture key from the shared __cv_i right after this
instance's cv_is call gives a value independent of the prior shared
state. -/
theorem cvIsS_read_indep (m : OttoMix) (st st' : Store) (k : String)
    (hk : k ∈ (mixSpecies m).map Species.name) :
    dget (cvIsS m st).2 k = dget (cvIsS m st').2 k := by
  simp only [cvIsS, cpIsS]
  rw [cvKvs_indep m st.cpI [], cvKvs_indep m st'.cpI []]
  have hmem : k ∈ (cvKvs m (odsets [] (cpKvs m))).map Prod.fst := by
    rw [cvKvs_keys]
    exact hk
  rw [dget_odsets_mem st.cvI _ _ hmem, dget_odsets_mem st'.cvI _ _ hmem]

/-- Reading a product key from the shared __burnt_cv_i right after a
burnt_cv_is call gives a value independent of the prior shared
state. -/
theorem burntCvIsS_read_indep (st st' : Store) (k : String)
    (hk : k ∈ burntSpeciesCp.map Prod.fst) :
    dget (burntCvIsS st).2 k = dget (burntCvIsS st').2 k := by
  simp only [burntCvIsS, burntCpIsS]
  rw [bcvKvs_indep st.bCpI [], bcvKvs_indep st'.bCpI []]
  have hmem : k ∈ (bcvKvs (odsets [] bcpKvs)).map Prod.fst := by
    rw [bcvKvs_keys]
    exact hk
  rw [dget_odsets_mem st.bCvI _ _ hmem, dget_odsets_mem st'.bCvI _ _ hmem]

/-- Each fuel of the zipped fuel/proportion list is a mixture
species. -/
theorem fuelName_mem_mixSpecies (m : OttoMix) (fp : Fuel × ℚ) (h : fp ∈ m.fuels.zip m.props) :
    fp.1.name ∈ (mixSpecies m).map Species.name := by
  simp only [mixSpecies, List.map_append, List.map_map, List.mem_append, List.mem_map,
    Function.comp]
  exact Or.inl ⟨fp, h, rfl⟩

/-- The value OttoMix.upper_cv_j returns does not depend on the prior
contents of the shared dictionaries: cv_is and burnt_cv_is rewrite
every key upper_cv_j reads. -/
theorem upperCvJS_indep (m : OttoMix) (s y zeta : ℚ) (st st' : Store) :
    (upperCvJS m s y zeta st).2 = (upperCvJS m s y zeta st').2 := by
  simp only [upperCvJS]
  rw [burntCvIsS_read_indep (cvIsS m st).1 (cvIsS m st').1 "CO2" (by simp [burntSpeciesCp]),
    burntCvIsS_read_indep (cvIsS m st).1 (cvIsS m st').1 "H2O" (by simp [burntSpeciesCp]),
    burntCvIsS_read_indep (cvIsS m st).1 (cvIsS m st').1 "CO" (by simp [burntSpeciesCp]),
    burntCvIsS_read_indep (cvIsS m st).1 (cvIsS m st').1 "H2" (by simp [burntSpeciesCp]),
    burntCvIsS_read_indep (cvIsS m st).1 (cvIsS m st').1 "O2" (by simp [burntSpeciesCp]),
    burntCvIsS_read_indep (cvIsS m st).1 (cvIsS m st').1 "N2" (by simp [burntSpeciesCp])]
  refine congrArg (fun z => _ + z) (congrArg List.sum (List.map_congr_left fun fp hfp => ?_))
  rw [cvIsS_read_indep m st st' fp.1.name (fuelName_mem_mixSpecies m fp hfp)]

/-- The value OttoMix.cv_m_j returns does not depend on the prior
contents of the shared dictionaries. -/
theorem cvMJS_indep (m : OttoMix) (s y zeta : ℚ) (st st' : Store) :
    (cvMJS m s y zeta st).2 = (cvMJS m s y zeta st').2 := by
  simp only [cvMJS]
  rw [burntCvIsS_read_indep (cvIsS m st).1 (cvIsS m st').1 "CO2" (by simp [burntSpeciesCp]),
    burntCvIsS_read_indep (cvIsS m st).1 (cvIsS m st').1 "H2O" (by simp [burntSpeciesCp]),
    burntCvIsS_read_indep (cvIsS m st).1 (cvIsS m st').1 "CO" (by simp [burntSpeciesCp]),
    burntCvIsS_read_indep (cvIsS m st).1 (cvIsS m st').1 "H2" (by simp [burntSpeciesCp]),
    burntCvIsS_read_indep (cvIsS m st).1 (cvIsS m st').1 "O2" (by simp [burntSpeciesCp]),
    burntCvIsS_read_indep (cvIsS m st).1 (cvIsS m st').1 "N2" (by simp [burntSpeciesCp])]
  refine congrArg (fun z => _ + z) (congrArg List.sum (List.map_congr_left fun fp hfp => ?_))
  rw [cvIsS_read_indep m st st' fp.1.name (fuelName_mem_mixSpecies m fp hfp)]

/-- The allCv row of Solve.prim does not depend on the prior contents
of the shared dictionaries. -/
theorem upperCvRowS_indep (m : OttoMix) (s zeta : ℚ) :
    ∀ (Ys : List ℚ) (st st' : Store),
      (upperCvRowS m s zeta Ys st).2 = (upperCvRowS m s zeta Ys st').2
  | [], _, _ => rfl
  | y :: ys, st, st' => by
    simp only [upperCvRowS]
    exact congrArg₂ List.cons (upperCvJS_indep m s y zeta st st')
      (upperCvRowS_indep m s zeta ys _ _)

/-- The allQ row of Solve.prim does not depend on the prior contents of
the shared dictionaries. -/
theorem qjRowS_indep (m : OttoMix) (s zeta : ℚ) :
    ∀ (Ys : List ℚ) (st st' : Store), (qjRowS m s zeta Ys st).2 = (qjRowS m s zeta Ys st').2
  | [], _, _ => rfl
  | [_], _, _ => rfl
  | y1 :: y2 :: ys, st, st' => by
    simp only [qjRowS]
    exact congrArg₂ List.cons (qjS_indep m s y1 y2 zeta st st')
      (qjRowS_indep m s zeta (y2 :: ys) _ _)

/-- The stored work row of Solve.iterate does not depend on the prior
contents of the shared dictionaries (the isochoric test reads only
volumes, and the stored work is the converged estimate). -/
theorem iterateTrabS_indep (m : OttoMix) (s zeta e_v : ℚ) :
    ∀ (vols Ys Ws : List ℚ) (st st' : Store),
      (iterateTrabS m s zeta e_v vols Ys Ws st).2 =
        (iterateTrabS m s zeta e_v vols Ys Ws st').2
  | [], _, _, _, _ => rfl
  | [_], _, _, _, _ => rfl
  | _ :: _ :: _, [], _, _, _ => rfl
  | _ :: _ :: _, [_], _, _, _ => rfl
  | _ :: _ :: _, _ :: _ :: _, [], _, _ => rfl
  | v1 :: v2 :: vs, y1 :: y2 :: ys, w :: ws, st, st' => by
    simp only [iterateTrabS]
    by_cases h : |v2 - v1| < e_v
    · simp only [if_pos h]
      exact congrArg (List.cons 0) (iterateTrabS_indep m s zeta e_v (v2 :: vs) (y2 :: ys) ws _ _)
    · simp only [if_neg h]
      exact congrArg (List.cons w) (iterateTrabS_indep m s zeta e_v (v2 :: vs) (y2 :: ys) ws _ _)

/-- The evaluation stages alone (prim, iterate, results) of an
ALREADY-CONSTRUCTED instance are store-independent: every shared
dictionary read they perform is of a key the same call just wrote, so
on a fixed mix record the (eta, W_liq, rbw) value is unchanged by a
full run of any other instance.  Instance independence nevertheless
FAILS for the code, because constructing the mix record itself reads
the shared __Xis (see mkOttoMixS and solve_instances_share_state
below): this theorem localises the leak to construction. -/
theorem runSolveS_value_store_indep (A B : SolveIn) (st : Store) :
    (runSolveS A ((runSolveS B st).1)).2 = (runSolveS A st).2 := by
  simp only [runSolveS, solveResultsS, primS]
  exact congrArg resultsOut
    (congrArg₂ List.zip
      (iterateTrabS_indep A.mix A.s A.zeta A.e_v A.vols A.Ys A.Ws _ _)
      (qjRowS_indep A.mix A.s A.zeta A.Ys _ _))

/-- The nCO field of the rich branch is the selected root richCO. -/
theorem burnt_n_i_rich_nCO (m : OttoMix) (k s : ℚ) (h : 1 < m.phi) :
    (burnt_n_i m k s).nCO = richCO m k s := by
  rw [burnt_n_i_rich m k s h]

/-- For every mixture the constructor produces with a well-defined
epsilon, the air O2 amount, phi, n_F and epsilon are linked by
airO2 * phi = n_F * epsDen (from n_F = n_ar * phi * eps / (1 + psi)
with eps = 1 / epsDen). -/
theorem div_mul_inv_eps (X q E : ℚ) (hE : E ≠ 0) :
    X * q * (1 / E) / (1 + 94 / 25) * E = X / (1 + 94 / 25) * q := by
  field_simp
  ring

theorem mkOttoMix_airO2_rel (fuel : List Fuel) (ns : List ℚ) (phi p t v q : ℚ)
    (hE : epsDen fuel ≠ 0) :
    airO2 (mkOttoMix fuel ns phi p t v q) * (mkOttoMix fuel ns phi p t v q).phi =
      (mkOttoMix fuel ns phi p t v q).n_F * epsDen fuel := by
  simp only [mkOttoMix, airO2, mix_epsilon]
  exact (div_mul_inv_eps _ phi (epsDen fuel) hE).symm

/-- For positive pressure, temperature and volume, a non-negative phi
and a positive epsilon denominator, the constructor produces positive
n_ar and n_F when phi is positive. -/
theorem mkOttoMix_nF_pos (fuel : List Fuel) (ns : List ℚ) (phi p t v q : ℚ)
    (hp : 0 < p) (ht : 0 < t) (hv : 0 < v) (hphi : 0 < phi) (hE : 0 < epsDen fuel) :
    0 < (mkOttoMix fuel ns phi p t v q).n_F := by
  simp only [mkOttoMix, mix_epsilon]
  have hRu : (0:ℚ) < Ru := by norm_num [Ru]
  have hpsi : (0:ℚ) < 1 + 94 / 25 := by norm_num
  have heps : 0 < 1 / epsDen fuel := by positivity
  have hden : (0:ℚ) < 1 + phi * (1 / epsDen fuel) / (1 + 94 / 25) := by positivity
  positivity

/-- C2 core: under the constructor relation between airO2, phi, n_F
and epsilon, for a rich mixture and k > 1 the coefficient bb of the
quadratic is negative. -/
theorem richB_neg (m : OttoMix) (k : ℚ) (hphi : 1 < m.phi) (hk : 1 < k)
    (hc : 0 ≤ nc m.fuels) (hh : 0 ≤ nh m.fuels) (hE : 0 < epsDen m.fuels) (hnF : 0 < m.n_F)
    (hrel : airO2 m * m.phi = m.n_F * epsDen m.fuels) : richB m k < 0 := by
  have hphi0 : (0:ℚ) < m.phi := lt_trans one_pos hphi
  have hb : richB m k * m.phi =
      -(m.n_F * (nh m.fuels / 2 + k * nc m.fuels) * m.phi) -
        2 * (k - 1) * m.n_F * epsDen m.fuels * (m.phi - 1) := by
    unfold airO2 at hrel
    unfold richB epsDen
    unfold epsDen at hrel
    linear_combination (2 * k - 2) * hrel
  have hq : 0 ≤ nh m.fuels / 2 + k * nc m.fuels := by nlinarith
  have t1 : 0 ≤ m.n_F * (nh m.fuels / 2 + k * nc m.fuels) * m.phi :=
    mul_nonneg (mul_nonneg hnF.le hq) hphi0.le
  have t2 : 0 < 2 * (k - 1) * m.n_F * epsDen m.fuels * (m.phi - 1) :=
    mul_pos (mul_pos (mul_pos (mul_pos (by norm_num) (by linarith)) hnF) hE) (by linarith)
  have hbp : richB m k * m.phi < 0 := by rw [hb]; linarith
  by_contra hcon
  push_neg at hcon
  nlinarith [mul_nonneg hcon hphi0.le]

/-- C2 core: under the same hypotheses the coefficient cc of the
quadratic is non-negative. -/
theorem richC_nonneg (m : OttoMix) (k : ℚ) (hphi : 1 < m.phi) (hk : 1 < k)
    (hc : 0 ≤ nc m.fuels) (hE : 0 < epsDen m.fuels) (hnF : 0 < m.n_F)
    (hrel : airO2 m * m.phi = m.n_F * epsDen m.fuels) : 0 ≤ richC m k := by
  have hphi0 : (0:ℚ) < m.phi := lt_trans one_pos hphi
  have hcid : richC m k * m.phi =
      2 * k * nc m.fuels * m.n_F ^ 2 * epsDen m.fuels * (m.phi - 1) := by
    unfold airO2 at hrel
    unfold richC epsDen
    unfold epsDen at hrel
    linear_combination (-(2 * k * nc m.fuels * m.n_F)) * hrel
  have t3 : 0 ≤ 2 * k * nc m.fuels * m.n_F ^ 2 * epsDen m.fuels * (m.phi - 1) :=
    mul_nonneg
      (mul_nonneg (mul_nonneg (mul_nonneg (by linarith) hc) (sq_nonneg m.n_F)) hE.le)
      (by linarith)
  by_contra hcon
  push_neg at hcon
  have : richC m k * m.phi < 0 := mul_neg_of_neg_of_pos hcon hphi0
  rw [hcid] at this
  linarith

/-- C2: For every rich mixture (phi greater than 1) with k greater
than 1, non-negative carbon and hydrogen atom counts, a positive
epsilon denominator and positive fuel moles satisfying the constructor
relation, and for every s with s squared equal to the quadratic
discriminant (the feasibility condition math.sqrt needs), burnt_n_i
selects the CO amount by the documented root rule (the root
(-b - s)/(2a), switched to (-b + s)/(2a) exactly when the former is
negative), the selected root is in fact the first root, and it is
non-negative. -/
theorem rich_CO_root_nonneg (m : OttoMix) (k s : ℚ)
    (hphi : 1 < m.phi) (hk : 1 < k) (hs : 0 ≤ s)
    (hdisc : s ^ 2 = richB m k ^ 2 - 4 * richA k * richC m k)
    (hc : 0 ≤ nc m.fuels) (hh : 0 ≤ nh m.fuels)
    (hE : 0 < epsDen m.fuels) (hnF : 0 < m.n_F)
    (hrel : airO2 m * m.phi = m.n_F * epsDen m.fuels) :
    (burnt_n_i m k s).nCO =
        (if (-richB m k - s) / (2 * richA k) < 0 then (-richB m k + s) / (2 * richA k)
          else (-richB m k - s) / (2 * richA k)) ∧
      (burnt_n_i m k s).nCO = (-richB m k - s) / (2 * richA k) ∧
      0 ≤ (burnt_n_i m k s).nCO := by
  have hBneg : richB m k < 0 := richB_neg m k hphi hk hc hh hE hnF hrel
  have hCnn : 0 ≤ richC m k := richC_nonneg m k hphi hk hc hE hnF hrel
  have h4ac : 0 ≤ 4 * richA k * richC m k := by
    unfold richA
    exact mul_nonneg (by linarith) hCnn
  have hs2 : s ^ 2 ≤ richB m k ^ 2 := by rw [hdisc]; linarith
  have hsB : s ≤ -richB m k := by
    by_contra hcon
    push_neg at hcon
    have h1 : 0 < s - richB m k := by linarith
    have h2 : 0 < s + richB m k := by linarith
    nlinarith [mul_pos h2 h1]
  have hroot : 0 ≤ (-richB m k - s) / (2 * richA k) := by
    apply div_nonneg (by linarith)
    unfold richA
    linarith
  have hsel : (burnt_n_i m k s).nCO = (-richB m k - s) / (2 * richA k) := by
    rw [burnt_n_i_rich_nCO m k s hphi, richCO, if_neg (not_lt.mpr hroot)]
  refine ⟨?_, hsel, hsel ▸ hroot⟩
  rw [burnt_n_i_rich_nCO m k s hphi, richCO]

/-- C10: the rich branch of burnt_n_i never assigns nO2, so the
class-level default 0.0 is returned, and the burnt total therefore
contains no free oxygen: it is the sum of the five other product
amounts. -/
theorem rich_O2_is_zero (m : OttoMix) (k s : ℚ) (h : 1 < m.phi) :
    (burnt_n_i m k s).nO2 = 0 ∧
      burntTotal (burnt_n_i m k s) =
        (burnt_n_i m k s).nCO2 + (burnt_n_i m k s).nH2O + (burnt_n_i m k s).nCO +
          (burnt_n_i m k s).nH2 + (burnt_n_i m k s).nN2 := by
  have h0 : (burnt_n_i m k s).nO2 = 0 := by rw [burnt_n_i_rich m k s h]
  exact ⟨h0, by rw [burntTotal, h0]; ring⟩

/-- In the rich branch the products carry 2 * nh * n_F hydrogen atoms,
twice the hydrogen supplied by the fuel: nH2O + nH2 telescopes to
nh * n_F, and each molecule carries two atoms. -/
theorem rich_burntH (m : OttoMix) (k s : ℚ) (h : 1 < m.phi) :
    burntH (burnt_n_i m k s) = 2 * nh m.fuels * m.n_F := by
  rw [burnt_n_i_rich m k s h, burntH]
  ring

/-- In the rich branch carbon, oxygen and nitrogen are conserved for a
single fuel at proportion one: only hydrogen is not. -/
theorem rich_single_fuel_conserves_C_O_N (m : OttoMix) (f : Fuel) (k s : ℚ)
    (hf : m.fuels = [f]) (hp : m.props = [1]) (h : 1 < m.phi) :
    burntC (burnt_n_i m k s) = unburntC m ∧
      burntO (burnt_n_i m k s) = unburntO m ∧
      burntN (burnt_n_i m k s) = unburntN m := by
  rw [burnt_n_i_rich m k s h]
  refine ⟨?_, ?_, ?_⟩ <;>
    simp [burntC, burntO, burntN, unburntC, unburntO, unburntN, nc, nh, no, nn, airO2, airN2,
      hf, hp] <;> ring

/-- In the lean branch all four elements are conserved for a single
fuel at proportion one. -/
theorem lean_single_fuel_conserves_atoms (m : OttoMix) (f : Fuel) (k s : ℚ)
    (hf : m.fuels = [f]) (hp : m.props = [1]) (h : m.phi ≤ 1) :
    burntC (burnt_n_i m k s) = unburntC m ∧
      burntH (burnt_n_i m k s) = unburntH m ∧
      burntO (burnt_n_i m k s) = unburntO m ∧
      burntN (burnt_n_i m k s) = unburntN m := by
  rw [burnt_n_i_lean m k s h]
  refine ⟨?_, ?_, ?_, ?_⟩ <;>
    simp [burntC, burntH, burntO, burntN, unburntC, unburntH, unburntO, unburntN, nc, nh, no,
      nn, airO2, airN2, hf, hp] <;> ring

/-- C1 fails on the code: the concrete rich methane mixture
OttoMix(['CH4'], [1.0], phi=2, p=100 kPa, T=300 K, V=432*Ru/25) has a
feasible discriminant at k = 9/2 (s = 15/2 is its exact square root),
its unreacted charge carries 4 hydrogen atoms, but the burnt
composition returned by burnt_n_i carries 8: atom conservation is
violated in the rich branch (nH2 is computed without the factor 1/2
that the lean branch applies to the hydrogen balance). -/
theorem rich_H_conservation_fails :
    1 < Mch4.phi ∧
      (0:ℚ) ≤ 15 / 2 ∧
      (15 / 2 : ℚ) ^ 2 = richB Mch4 (9 / 2) ^ 2 - 4 * richA (9 / 2) * richC Mch4 (9 / 2) ∧
      unburntH Mch4 = 4 ∧
      burntH (burnt_n_i Mch4 (9 / 2) (15 / 2)) = 8 ∧
      burntH (burnt_n_i Mch4 (9 / 2) (15 / 2)) ≠ unburntH Mch4 := by
  have hphi : 1 < Mch4.phi := by norm_num [Mch4, mkOttoMix]
  have hH : unburntH Mch4 = 4 := by
    norm_num [unburntH, Mch4, mkOttoMix, mix_epsilon, epsDen, nc, nh, no, fuelCH4, Ru]
  have hB8 : burntH (burnt_n_i Mch4 (9 / 2) (15 / 2)) = 8 := by
    rw [rich_burntH Mch4 (9 / 2) (15 / 2) hphi]
    norm_num [Mch4, mkOttoMix, mix_epsilon, epsDen, nc, nh, no, fuelCH4, Ru]
  refine ⟨hphi, by norm_num, ?_, hH, hB8, by rw [hB8, hH]; norm_num⟩
  norm_num [richA, richB, richC, Mch4, mkOttoMix, mix_epsilon, epsDen, nc, nh, no, fuelCH4, Ru]

/-- The fuel sum of qj factors through the difference of the two
y-weights. -/
theorem sum_map_fuel_terms (l : List (Fuel × ℚ)) (a b nF : ℚ) :
    (l.map (fun fp => a * nF * fp.2 * fp.1.hf0 - b * nF * fp.2 * fp.1.hf0)).sum =
      (a - b) * (l.map (fun fp => nF * fp.2 * fp.1.hf0)).sum := by
  induction l with
  | nil => simp
  | cons x t ih => simp only [List.map_cons, List.sum_cons, ih]; ring

/-- C3: heat-release additivity of OttoMix.qj.  For every instance and
every 0 <= y0 <= y1 <= y2 <= 1 and zeta in the unit interval,
qj(y0, y2, zeta) = qj(y0, y1, zeta) + qj(y1, y2, zeta) in exact
arithmetic (every term of qj is linear in the difference of its two
progress arguments). -/
theorem qj_additive (m : OttoMix) (s y0 y1 y2 zeta : ℚ)
    (h0 : 0 ≤ y0) (h01 : y0 ≤ y1) (h12 : y1 ≤ y2) (h2 : y2 ≤ 1)
    (hz0 : 0 ≤ zeta) (hz1 : zeta ≤ 1) :
    qj m s y0 y2 zeta = qj m s y0 y1 zeta + qj m s y1 y2 zeta := by
  simp only [qj]
  rw [sum_map_fuel_terms, sum_map_fuel_terms, sum_map_fuel_terms]
  ring

/-- Witness for C3 at the lean octane mixture with y0 = 0, y1 = 1/2,
y2 = 1, zeta = 1/4. -/
theorem qj_additive_witness :
    qj Moct 0 0 1 (1 / 4) = qj Moct 0 0 (1 / 2) (1 / 4) + qj Moct 0 (1 / 2) 1 (1 / 4) :=
  qj_additive Moct 0 0 (1 / 2) 1 (1 / 4) (by norm_num) (by norm_num) (by norm_num)
    (by norm_num) (by norm_num) (by norm_num)

/-- C4: chi at full burn equals the burnt composition exactly (the
unreacted fuel and air scale by 1 - y and vanish, every burnt species
reaches its burnt_n_i amount), and on the unit interval every chi
component is monotone in y: the fuel and free-oxygen components are
non-increasing and the product and nitrogen components non-decreasing,
given non-negative burnt amounts, burnt O2 not exceeding the air O2,
and burnt N2 at least the air N2 (all of which hold for the
compositions burnt_n_i produces on physical inputs). -/
theorem chi_full_burn_and_monotone (m : OttoMix) (s zeta y1 y2 : ℚ)
    (hz0 : 0 ≤ zeta) (hz1 : zeta ≤ 1)
    (hnF : 0 ≤ m.n_F) (hnAr : 0 ≤ m.n_ar)
    (hco2 : 0 ≤ (burnt_n_i m defaultK s).nCO2) (hh2o : 0 ≤ (burnt_n_i m defaultK s).nH2O)
    (hco : 0 ≤ (burnt_n_i m defaultK s).nCO) (hh2 : 0 ≤ (burnt_n_i m defaultK s).nH2)
    (ho2 : (burnt_n_i m defaultK s).nO2 ≤ airO2 m)
    (hn2 : airN2 m ≤ (burnt_n_i m defaultK s).nN2)
    (hy0 : 0 ≤ y1) (hy12 : y1 ≤ y2) (hy2 : y2 ≤ 1) :
    ((chi m s 1 zeta).f = 0 ∧
      (chi m s 1 zeta).co2 = (burnt_n_i m defaultK s).nCO2 ∧
      (chi m s 1 zeta).h2o = (burnt_n_i m defaultK s).nH2O ∧
      (chi m s 1 zeta).co = (burnt_n_i m defaultK s).nCO ∧
      (chi m s 1 zeta).h2 = (burnt_n_i m defaultK s).nH2 ∧
      (chi m s 1 zeta).o2 = (burnt_n_i m defaultK s).nO2 ∧
      (chi m s 1 zeta).n2 = (burnt_n_i m defaultK s).nN2) ∧
    ((chi m s y2 zeta).f ≤ (chi m s y1 zeta).f ∧
      (chi m s y1 zeta).co2 ≤ (chi m s y2 zeta).co2 ∧
      (chi m s y1 zeta).h2o ≤ (chi m s y2 zeta).h2o ∧
      (chi m s y1 zeta).co ≤ (chi m s y2 zeta).co ∧
      (chi m s y1 zeta).h2 ≤ (chi m s y2 zeta).h2 ∧
      (chi m s y2 zeta).o2 ≤ (chi m s y1 zeta).o2 ∧
      (chi m s y1 zeta).n2 ≤ (chi m s y2 zeta).n2) := by
  have k1 : 0 ≤ 1 - zeta := by linarith
  have k2 : 0 ≤ y2 - y1 := by linarith
  constructor
  · refine ⟨?_, ?_, ?_, ?_, ?_, ?_, ?_⟩ <;> (simp only [chi]; ring)
  · refine ⟨?_, ?_, ?_, ?_, ?_, ?_, ?_⟩
    · simp only [chi]
      nlinarith [mul_nonneg (mul_nonneg k2 k1) hnF]
    · simp only [chi]
      nlinarith [mul_nonneg (mul_nonneg k1 k2) hco2]
    · simp only [chi]
      nlinarith [mul_nonneg (mul_nonneg k1 k2) hh2o]
    · simp only [chi]
      nlinarith [mul_nonneg (mul_nonneg k1 k2) hco]
    · simp only [chi]
      nlinarith [mul_nonneg (mul_nonneg k1 k2) hh2]
    · simp only [chi, airO2, div_eq_mul_inv] at ho2 ⊢
      nlinarith [mul_nonneg (mul_nonneg k1 k2) (sub_nonneg.mpr ho2)]
    · simp only [chi, airN2, div_eq_mul_inv] at hn2 ⊢
      nlinarith [mul_nonneg (mul_nonneg k1 k2) (sub_nonneg.mpr hn2)]

/-- Witness for C4 at the lean octane mixture, zeta = 1/4, y from 0
to 1: full burn leaves no fuel and the CO2 amount is non-decreasing. -/
theorem chi_full_burn_and_monotone_witness :
    (chi Moct 0 1 (1 / 4)).f = 0 ∧ (chi Moct 0 0 (1 / 4)).co2 ≤ (chi Moct 0 1 (1 / 4)).co2 := by
  have h := chi_full_burn_and_monotone Moct 0 (1 / 4) 0 1 (by norm_num) (by norm_num)
    (by norm_num [Moct, mkOttoMix, mix_epsilon, epsDen, nc, nh, no, fuelC8H18, Ru])
    (by norm_num [Moct, mkOttoMix, mix_epsilon, epsDen, nc, nh, no, fuelC8H18, Ru])
    (by norm_num [burnt_n_i, defaultK, Moct, mkOttoMix, mix_epsilon, epsDen, nc, nh, no, nn,
      fuelC8H18, Ru])
    (by norm_num [burnt_n_i, defaultK, Moct, mkOttoMix, mix_epsilon, epsDen, nc, nh, no, nn,
      fuelC8H18, Ru])
    (by norm_num [burnt_n_i, defaultK, Moct, mkOttoMix, mix_epsilon, epsDen, nc, nh, no, nn,
      fuelC8H18, Ru])
    (by norm_num [burnt_n_i, defaultK, Moct, mkOttoMix, mix_epsilon, epsDen, nc, nh, no, nn,
      fuelC8H18, Ru])
    (by norm_num [burnt_n_i, defaultK, airO2, Moct, mkOttoMix, mix_epsilon, epsDen, nc, nh, no,
      nn, fuelC8H18, Ru])
    (by norm_num [burnt_n_i, defaultK, airN2, Moct, mkOttoMix, mix_epsilon, epsDen, nc, nh, no,
      nn, fuelC8H18, Ru])
    (by norm_num) (by norm_num) (by norm_num)
  exact ⟨h.1.1, h.2.2.1⟩

/-- C5: the isochoric branch of Solve.iterate.  When the volume change
is below the tolerance e_v, the stored work is exactly zero, the
internal energy advances by the step heat alone, the temperature by
Q/Cv, the pressure comes directly from the ideal-gas relation at the
next burn fraction, and the result does not depend on the work
estimate at all (no fixed-point iteration is involved). -/
theorem iterate_isochoric (m : OttoMix) (s zeta e_v vj vj1 yj yj1 Uj Tj Qj Cvj Cvj1 W : ℚ)
    (h : |vj1 - vj| < e_v) :
    (iterateStep m s zeta e_v vj vj1 yj yj1 Uj Tj Qj Cvj Cvj1 W).2 = 0 ∧
      (iterateStep m s zeta e_v vj vj1 yj yj1 Uj Tj Qj Cvj Cvj1 W).1.U = Uj + Qj ∧
      (iterateStep m s zeta e_v vj vj1 yj yj1 Uj Tj Qj Cvj Cvj1 W).1.T = Qj / Cvj + Tj ∧
      (iterateStep m s zeta e_v vj vj1 yj yj1 Uj Tj Qj Cvj Cvj1 W).1.P =
        nm_j m s yj1 zeta * Ru * (Qj / Cvj + Tj) / vj1 ∧
      (∀ W', iterateStep m s zeta e_v vj vj1 yj yj1 Uj Tj Qj Cvj Cvj1 W' =
        iterateStep m s zeta e_v vj vj1 yj yj1 Uj Tj Qj Cvj Cvj1 W) := by
  refine ⟨?_, ?_, ?_, ?_, fun W' => ?_⟩ <;> simp only [iterateStep, if_pos h]

/-- Witness for C5 at concrete numbers with equal volumes. -/
theorem iterate_isochoric_witness :
    (iterateStep Moct 0 0 (1 / 100) 1 1 0 0 5 300 2 1 1 7).2 = 0 ∧
      (iterateStep Moct 0 0 (1 / 100) 1 1 0 0 5 300 2 1 1 7).1.U = 5 + 2 := by
  have h := iterate_isochoric Moct 0 0 (1 / 100) 1 1 0 0 5 300 2 1 1 7 (by norm_num)
  exact ⟨h.1, h.2.1⟩

/-- C6 fails on the code: in the state stored after the work loop, U
and T are updated as the spec says (U' = U + Q + W and T' = U'/cv'),
but the stored pressure uses the mole count at Y[j] (otto.py line 224),
not at Y[j+1] as the in-loop update (line 213) and the spec do.  At the
lean octane mixture with zeta = 0, a transition from y = 0 to y = 1
has nm_j(0,0) = 1 but nm_j(1,0) = 247/240 (octane combustion changes
the mole count), so the stored pressure differs from the ideal-gas
pressure at the new composition. -/
theorem iterate_final_pressure_uses_Yj :
    (iterateStep Moct 0 0 (1 / 1000) 1 2 0 1 0 0 0 1 1 1).1.U = 0 + 0 + 1 ∧
      (iterateStep Moct 0 0 (1 / 1000) 1 2 0 1 0 0 0 1 1 1).1.T = (0 + 0 + 1) / 1 ∧
      (iterateStep Moct 0 0 (1 / 1000) 1 2 0 1 0 0 0 1 1 1).1.P =
        nm_j Moct 0 0 0 * Ru * ((0 + 0 + 1) / 1) / 2 ∧
      nm_j Moct 0 0 0 = 1 ∧
      nm_j Moct 0 1 0 = 247 / 240 ∧
      (iterateStep Moct 0 0 (1 / 1000) 1 2 0 1 0 0 0 1 1 1).1.P ≠
        nm_j Moct 0 1 0 * Ru *
          (iterateStep Moct 0 0 (1 / 1000) 1 2 0 1 0 0 0 1 1 1).1.T / 2 := by
  have hnm0 : nm_j Moct 0 0 0 = 1 := by
    norm_num [nm_j, chi, burnt_n_i, defaultK, airO2, airN2, Moct, mkOttoMix, mix_epsilon,
      epsDen, nc, nh, no, nn, fuelC8H18, Ru]
  have hnm1 : nm_j Moct 0 1 0 = 247 / 240 := by
    norm_num [nm_j, chi, burnt_n_i, defaultK, airO2, airN2, Moct, mkOttoMix, mix_epsilon,
      epsDen, nc, nh, no, nn, fuelC8H18, Ru]
  have hne : ¬ |(2:ℚ) - 1| < 1 / 1000 := by norm_num
  refine ⟨?_, ?_, ?_, hnm0, hnm1, ?_⟩ <;> simp only [iterateStep, if_neg hne]
  rw [hnm0, hnm1]
  norm_num [Ru]

/-- The w_ent accumulator equals the sum of the non-negative per-step
works. -/
theorem resultsSums_went :
    ∀ steps : List (ℚ × ℚ),
      (resultsSums steps).1 = ((steps.map Prod.fst).filter (fun w => 0 ≤ w)).sum
  | [] => by simp [resultsSums]
  | wq :: t => by
    simp only [resultsSums, List.map_cons, List.filter_cons]
    by_cases h : 0 ≤ wq.1
    · simp [h, resultsSums_went t]
    · simp [h, resultsSums_went t]

/-- The w_sai accumulator equals the negated sum of the negative
per-step works. -/
theorem resultsSums_wsai :
    ∀ steps : List (ℚ × ℚ),
      (resultsSums steps).2.1 = -(((steps.map Prod.fst).filter (fun w => w < 0)).sum)
  | [] => by simp [resultsSums]
  | wq :: t => by
    simp only [resultsSums, List.map_cons, List.filter_cons]
    by_cases h : wq.1 < 0
    · simp [h, not_le.mpr h, resultsSums_wsai t]
      ring
    · simp [h, not_lt.mp h, resultsSums_wsai t]

/-- The q_ent accumulator equals the sum of the non-negative per-step
heats. -/
theorem resultsSums_qent :
    ∀ steps : List (ℚ × ℚ),
      (resultsSums steps).2.2.1 = ((steps.map Prod.snd).filter (fun q => 0 ≤ q)).sum
  | [] => by simp [resultsSums]
  | wq :: t => by
    simp only [resultsSums, List.map_cons, List.filter_cons]
    by_cases h : 0 ≤ wq.2
    · simp [h, resultsSums_qent t]
    · simp [h, resultsSums_qent t]

/-- The q_sai accumulator equals the negated sum of the negative
per-step heats. -/
theorem resultsSums_qsai :
    ∀ steps : List (ℚ × ℚ),
      (resultsSums steps).2.2.2 = -(((steps.map Prod.snd).filter (fun q => q < 0)).sum)
  | [] => by simp [resultsSums]
  | wq :: t => by
    simp only [resultsSums, List.map_cons, List.filter_cons]
    by_cases h : wq.2 < 0
    · simp [h, not_le.mpr h, resultsSums_qsai t]
      ring
    · simp [h, not_lt.mp h, resultsSums_qsai t]

/-- C7: Solve.results aggregation.  Work-in is the sum of the
non-negative per-step works, work-out the negated sum of the negative
ones, heat-in and heat-out partition the per-step heats the same way,
net work is work-out minus work-in, efficiency is net work over
heat-in, and the work ratio is work-in over work-out. -/
theorem results_aggregation (steps : List (ℚ × ℚ)) :
    (resultsSums steps).1 = ((steps.map Prod.fst).filter (fun w => 0 ≤ w)).sum ∧
      (resultsSums steps).2.1 = -(((steps.map Prod.fst).filter (fun w => w < 0)).sum) ∧
      (resultsSums steps).2.2.1 = ((steps.map Prod.snd).filter (fun q => 0 ≤ q)).sum ∧
      (resultsSums steps).2.2.2 = -(((steps.map Prod.snd).filter (fun q => q < 0)).sum) ∧
      (resultsOut steps).2.1 = (resultsSums steps).2.1 - (resultsSums steps).1 ∧
      (resultsOut steps).1 =
        ((resultsSums steps).2.1 - (resultsSums steps).1) / (resultsSums steps).2.2.1 ∧
      (resultsOut steps).2.2 = (resultsSums steps).1 / (resultsSums steps).2.1 :=
  ⟨resultsSums_went steps, resultsSums_wsai steps, resultsSums_qent steps,
    resultsSums_qsai steps, rfl, rfl, rfl⟩

/-- C8: ChemMix.__init__ argument validation.  A string passed for the
species or mole list raises TypeError at once, lists of unequal length
raise IndexError at once, and a mixture state exists only when both
arguments are lists of equal length. -/
theorem chemMixInit_validation (sp : ArgSpecies) (nmol : ArgMols) :
    ((∃ x, sp = ArgSpecies.ofString x) ∨ (∃ x, nmol = ArgMols.ofString x) →
        chemMixInit sp nmol = Except.error InitError.typeError) ∧
      (∀ xs ys, sp = ArgSpecies.ofList xs → nmol = ArgMols.ofList ys →
        xs.length ≠ ys.length → chemMixInit sp nmol = Except.error InitError.indexError) ∧
      (∀ st, chemMixInit sp nmol = Except.ok st →
        ∃ xs ys, sp = ArgSpecies.ofList xs ∧ nmol = ArgMols.ofList ys ∧
          xs.length = ys.length) := by
  cases sp with
  | ofString x =>
    refine ⟨fun _ => rfl, ?_, ?_⟩
    · intro xs ys hxs
      exact absurd hxs (by simp)
    · intro st h
      simp [chemMixInit] at h
  | ofList xs =>
    cases nmol with
    | ofString y =>
      refine ⟨fun _ => rfl, ?_, ?_⟩
      · intro xs' ys hxs hys
        exact absurd hys (by simp)
      · intro st h
        simp [chemMixInit] at h
    | ofList ys =>
      refine ⟨?_, ?_, ?_⟩
      · rintro (⟨x, hx⟩ | ⟨x, hx⟩) <;> simp at hx
      · intro xs' ys' hx hy hne
        obtain rfl : xs' = xs := by injection hx.symm
        obtain rfl : ys' = ys := by injection hy.symm
        simp only [chemMixInit]
        rw [if_pos hne]
      · intro st h
        simp only [chemMixInit] at h
        by_cases hlen : xs.length ≠ ys.length
        · rw [if_pos hlen] at h
          exact absurd h (by simp)
        · push_neg at hlen
          exact ⟨xs, ys, rfl, rfl, hlen⟩

/-- Witness for C8: a string species argument and a length mismatch
both fail with the respective error. -/
theorem chemMixInit_validation_witness :
    chemMixInit (ArgSpecies.ofString "C8H18") (ArgMols.ofList [1]) =
        Except.error InitError.typeError ∧
      chemMixInit (ArgSpecies.ofList ["C8H18", "H2"]) (ArgMols.ofList [1]) =
        Except.error InitError.indexError := by
  constructor
  · exact (chemMixInit_validation _ _).1 (Or.inl ⟨_, rfl⟩)
  · exact (chemMixInit_validation _ _).2.1 ["C8H18", "H2"] [1] rfl rfl (by decide)

/-- Witness for C2 at the rich methane mixture with k = 9/2, whose
discriminant 225/4 has the exact square root 15/2. -/
theorem rich_CO_root_nonneg_witness :
    (burnt_n_i Mch4 (9 / 2) (15 / 2)).nCO =
        (-richB Mch4 (9 / 2) - 15 / 2) / (2 * richA (9 / 2)) ∧
      0 ≤ (burnt_n_i Mch4 (9 / 2) (15 / 2)).nCO := by
  have h := rich_CO_root_nonneg Mch4 (9 / 2) (15 / 2)
    (by norm_num [Mch4, mkOttoMix]) (by norm_num) (by norm_num)
    (by norm_num [richA, richB, richC, Mch4, mkOttoMix, mix_epsilon, epsDen, nc, nh, no,
      fuelCH4, Ru])
    (by norm_num [nc, Mch4, mkOttoMix, fuelCH4])
    (by norm_num [nh, Mch4, mkOttoMix, fuelCH4])
    (by norm_num [epsDen, nc, nh, no, Mch4, mkOttoMix, fuelCH4])
    (by norm_num [Mch4, mkOttoMix, mix_epsilon, epsDen, nc, nh, no, fuelCH4, Ru])
    (by norm_num [airO2, Mch4, mkOttoMix, mix_epsilon, epsDen, nc, nh, no, fuelCH4, Ru])
  exact ⟨h.2.1, h.2.2⟩

/-- Witness for C10 at the rich methane mixture with the default
k = 3.5. -/
theorem rich_O2_is_zero_witness : (burnt_n_i Mch4 (7 / 2) 0).nO2 = 0 :=
  (rich_O2_is_zero Mch4 (7 / 2) 0 (by norm_num [Mch4, mkOttoMix])).1

/-- In a fresh process the store-passing constructor produces exactly
the pure record mkOttoMix builds: the clean proportion list is the
first-instance special case. -/
theorem mkOttoMixS_fresh_eq_Moct : Boct_fresh = Moct := by
  simp [Boct_fresh, Moct, mkOttoMixS, mkOttoMix, fracMolarFuelS, pristineStore, odsets, odset,
    fuelC8H18]

/-- C9 fails on the code: Solve (OttoMix) instances are NOT
independent of construction and evaluation order.  FuelMix.__init__
(ideal_mix.py line 312) takes the proportion list from
list(self.xi.values()), the values of the shared class-level __Xis.
After a first instance (the rich methane mixture) is constructed and
has computed its mass — which every results run does inside qj — the
shared dictionary holds CH4, O2, N2 with that instance's mole
fractions, so an octane instance constructed afterwards receives the
proportion list [25/144, 25/144, 47/72, 1] instead of [1]: its fuel
amount at line 860 is scaled by the methane instance's leftover CH4
fraction, and its unreacted composition (here the hydrogen atom count)
differs from the same instance constructed first, although n_ar and
n_F are unchanged.  The two runs disagree, refuting order
independence. -/
theorem solve_instances_share_state :
    Boct_fresh.props = [1] ∧
      Boct_after.props = [25 / 144, 25 / 144, 47 / 72, 1] ∧
      Boct_after.props ≠ Boct_fresh.props ∧
      Boct_after.n_F = Boct_fresh.n_F ∧
      unburntH Boct_fresh = 3 / 20 ∧
      unburntH Boct_after = 5 / 192 ∧
      unburntH Boct_after ≠ unburntH Boct_fresh := by
  have hfresh : Boct_fresh.props = [1] := by
    norm_num [Boct_fresh, mkOttoMixS, fracMolarFuelS, pristineStore, odsets, odset, fuelC8H18]
  have hafter : Boct_after.props = [25 / 144, 25 / 144, 47 / 72, 1] := by
    simp [Boct_after, storeAfterA, mkOttoMixS, fracMolarFuelS, pristineStore, massaS,
      massaMolarTotalS, fracMolarS, xisKvs, mixSpecies, mols_total, airO2, airN2, cvIsS,
      cpIsS, cpKvs, cvKvs, odsets, odset, dget, mix_epsilon, epsDen, nc, nh, no, nn, fuelCH4,
      fuelC8H18, Ru]
    norm_num
  have hfuels_a : Boct_after.fuels = [fuelC8H18] := by
    simp [Boct_after, mkOttoMixS]
  have hfuels_f : Boct_fresh.fuels = [fuelC8H18] := by
    simp [Boct_fresh, mkOttoMixS]
  have hnF_a : Boct_after.n_F = 1 / 120 := by
    norm_num [Boct_after, storeAfterA, mkOttoMixS, mix_epsilon, epsDen, nc, nh, no,
      fuelC8H18, Ru]
  have hnF_f : Boct_fresh.n_F = 1 / 120 := by
    norm_num [Boct_fresh, mkOttoMixS, mix_epsilon, epsDen, nc, nh, no, fuelC8H18, Ru]
  have hH_f : unburntH Boct_fresh = 3 / 20 := by
    simp only [unburntH, hfresh, hfuels_f, hnF_f]
    norm_num [fuelC8H18]
  have hH_a : unburntH Boct_after = 5 / 192 := by
    simp only [unburntH, hafter, hfuels_a, hnF_a]
    norm_num [fuelC8H18]
  refine ⟨hfresh, hafter, ?_, hnF_a.trans hnF_f.symm, hH_f, hH_a, ?_⟩
  · rw [hafter, hfresh]
    simp
  · rw [hH_a, hH_f]
    norm_num

end OttoFTAF
